import Mathlib

/-
  Verification development for the node-voice-agent relay server.

  The repository is a set of near-duplicate Node.js WebSocket relay servers
  bridging a downstream client (browser or Twilio media stream) to the
  upstream Deepgram voice-agent service.  The definitions below are shallow
  embeddings of the relevant JavaScript functions and event handlers,
  translated file by file:
    - part_000 : the JWT/nonce-authenticated browser relay,
    - part_001 (first chunk)  : the Twilio adapter with try/catch,
    - part_002 (first chunk)  : the Twilio adapter without try/catch,
    - server.js (second chunk): the hybrid relay with the no-subprotocol
      upgrade bypass and the 5-second shutdown.
-/

namespace VoiceAgent

/- ===================== JavaScript value model ===================== -/

/-- A JavaScript runtime value as relevant to the relay: the result of
`JSON.parse` plus `undefined` (absent property).  Numbers are modelled as
integers since only close codes and timestamps occur. -/
inductive JSVal where
  | undefVal
  | jsNull
  | bool (b : Bool)
  | num (n : Int)
  | str (s : String)
  | obj (fields : List (String × JSVal))

/-- JavaScript property access `v.k`.  Accessing a property of `undefined`
or `null` throws a TypeError (modelled as `Except.error`); on any other
non-object value the result is `undefined`; on an object it is the field
value, or `undefined` when the key is absent. -/
def getProp : JSVal → String → Except Unit JSVal
  | .undefVal, _ => .error ()
  | .jsNull, _ => .error ()
  | .obj fields, k =>
      .ok (match fields.find? (fun p => p.1 == k) with
           | some p => p.2
           | none => .undefVal)
  | _, _ => .ok .undefVal

/-- JavaScript strict equality of a value against a string literal. -/
def isStr (v : JSVal) (s : String) : Bool :=
  match v with
  | .str t => t == s
  | _ => false

/- ===================== Protocol adapter (Twilio variants) ===================== -/

/-- The frame `JSON.stringify({type:"input_audio", audio: payload})` sends
upstream: `JSON.stringify` omits object keys whose value is `undefined`. -/
def inputAudioFrame (payload : JSVal) : JSVal :=
  match payload with
  | .undefVal => .obj [("type", .str "input_audio")]
  | p => .obj [("type", .str "input_audio"), ("audio", p)]

/-- The frame `JSON.stringify({event:"media", media:{payload: audio}})` sends
downstream; again an `undefined` nested value is omitted by `JSON.stringify`. -/
def mediaOutFrame (audio : JSVal) : JSVal :=
  match audio with
  | .undefVal => .obj [("event", .str "media"), ("media", .obj [])]
  | a => .obj [("event", .str "media"), ("media", .obj [("payload", a)])]

/-- Body of the Twilio→Deepgram message handler (part_001 lines 67-77 and
part_002 lines 62-68): `const data = JSON.parse(msg); if (data.event ===
"media") deepgramWs.send(JSON.stringify({type:"input_audio", audio:
data.media.payload}))`.  The argument is the result of `JSON.parse`
(already-parsed value); property accesses may throw (`Except.error`), and
`some f` means the frame `f` is sent upstream. -/
def twilioToDeepgramBody (data : JSVal) : Except Unit (Option JSVal) := do
  let ev ← getProp data "event"
  if isStr ev "media" then
    let media ← getProp data "media"
    let payload ← getProp media "payload"
    return some (inputAudioFrame payload)
  else
    return none

/-- Body of the Deepgram→Twilio message handler (part_001 lines 85-95 and
part_002 lines 73-79): `if (data.type === "output_audio")
twilioWs.send(JSON.stringify({event:"media", media:{payload: data.audio}}))`. -/
def deepgramToTwilioBody (data : JSVal) : Except Unit (Option JSVal) := do
  let ty ← getProp data "type"
  if isStr ty "output_audio" then
    let audio ← getProp data "audio"
    return some (mediaOutFrame audio)
  else
    return none

/-- part_001 lines 66-81: the Twilio message handler wraps `JSON.parse` and
the body in try/catch, so a parse failure (`none` input, i.e. `JSON.parse`
threw) or a thrown property access is caught and logged; no frame is sent. -/
def twilioOnMessage_v1 (parsed : Option JSVal) : Option JSVal :=
  match parsed with
  | none => none
  | some data =>
      match twilioToDeepgramBody data with
      | .ok out => out
      | .error _ => none

/-- part_001 lines 84-99: Deepgram→Twilio handler with try/catch. -/
def deepgramOnMessage_v1 (parsed : Option JSVal) : Option JSVal :=
  match parsed with
  | none => none
  | some data =>
      match deepgramToTwilioBody data with
      | .ok out => out
      | .error _ => none

/-- part_002 lines 61-69: the Twilio message handler has NO try/catch:
`JSON.parse` of a non-JSON frame and any thrown property access escape the
handler (`Except.error`). -/
def twilioOnMessage_v2 (parsed : Option JSVal) : Except Unit (Option JSVal) :=
  match parsed with
  | none => .error ()
  | some data => twilioToDeepgramBody data

/-- part_002 lines 72-80: Deepgram→Twilio handler, also without try/catch. -/
def deepgramOnMessage_v2 (parsed : Option JSVal) : Except Unit (Option JSVal) :=
  match parsed with
  | none => .error ()
  | some data => deepgramToTwilioBody data

/- ===================== Nonce store (part_000 lines 47-69) ===================== -/

/-- The process-wide `sessionNonces` Map from nonce string to expiry
timestamp (milliseconds). -/
abbrev NonceStore := List (String × Int)

/-- `sessionNonces.get(k)`. -/
def storeGet (s : NonceStore) (k : String) : Option Int :=
  (s.find? (fun p => p.1 == k)).map (fun p => p.2)

/-- `sessionNonces.delete(k)`. -/
def storeDelete (s : NonceStore) (k : String) : NonceStore :=
  s.filter (fun p => p.1 != k)

/-- `sessionNonces.set(k, v)` (replaces any existing binding for `k`). -/
def storeSet (s : NonceStore) (k : String) (v : Int) : NonceStore :=
  storeDelete s k ++ [(k, v)]

/-- part_000 line 48: `const NONCE_TTL_MS = 5 * 60 * 1000`. -/
def NONCE_TTL_MS : Int := 5 * 60 * 1000

/-- part_000 lines 51-55: `generateNonce` records `now + NONCE_TTL_MS` as the
expiry of a fresh random value and returns the value.  The random value and
the current time are passed explicitly. -/
def generateNonce (s : NonceStore) (value : String) (now : Int) : String × NonceStore :=
  (value, storeSet s value (now + NONCE_TTL_MS))

/-- part_000 lines 57-62: `consumeNonce` looks the value up; a missing entry
(or a falsy stored expiry, i.e. `0`, matching `if (!expiry)`) returns false
without deleting; otherwise the entry is deleted unconditionally and the
result is `Date.now() < expiry`. -/
def consumeNonce (s : NonceStore) (now : Int) (nonce : String) : Bool × NonceStore :=
  match storeGet s nonce with
  | none => (false, s)
  | some expiry =>
      if expiry = 0 then (false, s)
      else (decide (now < expiry), storeDelete s nonce)

/-- part_000 lines 64-69: the 60-second sweep deletes every expired entry. -/
def sweepNonces (s : NonceStore) (now : Int) : NonceStore :=
  s.filter (fun p => decide (now < p.2))

/- ===================== JWT session tokens (part_000 lines 43-49, 85-97, 154-157) ===================== -/

/-- A decoded JWT as issued by `jwt.sign({iat}, SESSION_SECRET, {expiresIn:
'1h'})`: an issued-at claim, the derived expiry claim, and the signature.
The HMAC-SHA256 signature computed by the jsonwebtoken library over the
encoded claims is abstracted as an injective tag of the secret and the
claims (the standard idealization of an unforgeable MAC). -/
structure Token where
  iat : Int
  exp : Int
  sig : String

/-- The idealized HMAC tag over the secret and the signed claims. -/
def macString (secret : String) (iat exp : Int) : String :=
  secret ++ "|" ++ toString iat ++ "|" ++ toString exp

/-- part_000 lines 154-156: `jwt.sign({iat: now}, SESSION_SECRET,
{expiresIn: '1h'})` — the expiry claim is issued-at plus 3600 seconds. -/
def jwtSign (secret : String) (iat : Int) : Token :=
  { iat := iat, exp := iat + 3600, sig := macString secret iat (iat + 3600) }

/-- `jwt.verify(token, secret)` at time `now` (seconds): true iff the
signature verifies under `secret` and the token is not expired (jsonwebtoken
throws TokenExpiredError when `exp <= now`). -/
def jwtVerify (secret : String) (now : Int) (t : Token) : Bool :=
  t.sig == macString secret t.iat t.exp && decide (now < t.exp)

/- ===================== /api/session endpoint (part_000 lines 43-45, 140-158) ===================== -/

/-- part_000 lines 43-45: `REQUIRE_NONCE = !!process.env.SESSION_SECRET` —
nonce enforcement is active iff an external secret is configured; an empty
environment string is falsy. -/
def requireNonceOf (externalSecret : Option String) : Bool :=
  match externalSecret with
  | none => false
  | some s => !s.data.isEmpty

/-- The HTTP response of `GET /api/session`. -/
inductive SessionResponse where
  | authError (status : Nat) (etype code message : String)
  | issuedToken (t : Token)

/-- part_000 lines 140-158: when `REQUIRE_NONCE`, the `x-session-nonce`
header must be present and `consumeNonce` must succeed, otherwise a 403
`AuthenticationError/INVALID_NONCE` body is returned and no token is issued;
otherwise (and on success) a token signed over the current time in seconds
is returned.  `nowMs` is `Date.now()`. -/
def apiSession (requireNonce : Bool) (secret : String) (s : NonceStore)
    (nowMs : Int) (hdr : Option String) : SessionResponse × NonceStore :=
  if requireNonce then
    match hdr with
    | none =>
        (.authError 403 "AuthenticationError" "INVALID_NONCE"
          "Valid session nonce required. Please refresh the page.", s)
    | some nonce =>
        let r := consumeNonce s nowMs nonce
        if r.1 then
          (.issuedToken (jwtSign secret (Int.ediv nowMs 1000)), r.2)
        else
          (.authError 403 "AuthenticationError" "INVALID_NONCE"
            "Valid session nonce required. Please refresh the page.", r.2)
  else
    (.issuedToken (jwtSign secret (Int.ediv nowMs 1000)), s)

/- ===================== WebSocket upgrade gate (part_000 lines 85-110, 278-304; server.js lines 262-288, 402-429) ===================== -/

/-- JavaScript `s.split(sep)` for a single-character separator, at the
character-list level (`"".split(',')` is `[""]`, matching JS). -/
def charSplit (sep : Char) : List Char → List (List Char)
  | [] => [[]]
  | c :: rest =>
      let r := charSplit sep rest
      if c = sep then [] :: r
      else
        match r with
        | [] => [[c]]
        | g :: gs => (c :: g) :: gs

/-- The whitespace characters stripped by JavaScript `String.trim` that can
occur in an HTTP header value. -/
def isWsChar (c : Char) : Bool :=
  c == ' ' || c == '\t' || c == '\n' || c == '\r'

/-- JavaScript `s.trim()`. -/
def jsTrim (s : String) : String :=
  String.mk (((s.data.dropWhile isWsChar).reverse.dropWhile isWsChar).reverse)

/-- JavaScript `s.split(',')` returning strings. -/
def jsSplitComma (s : String) : List String :=
  (charSplit ',' s.data).map String.mk

/-- Character-list test that `pre` is a leading run of `s`. -/
def charPre : List Char → List Char → Bool
  | [], _ => true
  | _ :: _, [] => false
  | p :: ps, c :: cs => p == c && charPre ps cs

/-- JavaScript `s.startsWith(pre)`. -/
def jsStartsWith (s pre : String) : Bool :=
  charPre pre.data s.data

/-- JavaScript `s.slice(n)` for a non-negative character index. -/
def jsSlice (s : String) (n : Nat) : String :=
  String.mk (s.data.drop n)

/-- part_000 lines 85-97 (= server.js lines 262-276) `validateWsToken`:
split the `sec-websocket-protocol` header on commas, trim each entry, take
the first entry starting with `access_token.`, and verify the remainder as
a JWT.  `verify` abstracts `jwt.verify(token, SESSION_SECRET)` on the
serialized token string; the result is the full matching subprotocol entry,
or `none` on any failure (including an absent or empty header, both falsy
under `if (!protocols)`). -/
def validateWsToken (verify : String → Bool) (protocols : Option String) : Option String :=
  match protocols with
  | none => none
  | some ps =>
      if ps.data.isEmpty then none
      else
        match ((jsSplitComma ps).map jsTrim).find?
            (fun p => jsStartsWith p "access_token.") with
        | none => none
        | some tokenProto =>
            if verify (jsSlice tokenProto "access_token.".data.length) then some tokenProto
            else none

/-- part_000 lines 103-109 `handleProtocols`: the subprotocol echoed on a
successful upgrade is the first offered protocol starting with
`access_token.` (or no subprotocol at all when none matches). -/
def handleProtocols (offered : List String) : Option String :=
  offered.find? (fun p => jsStartsWith p "access_token.")

/-- Outcome of the HTTP upgrade handler. -/
inductive UpgradeResult where
  | refuse401
  | accept (echoed : Option String)
  | destroySocket
deriving DecidableEq, Repr

/-- part_000 lines 278-304: upgrades on `/api/voice-agent` require
`validateWsToken` to succeed (else `401 Unauthorized` and the socket is
destroyed); on success the upgrade completes and `handleProtocols` echoes
the matching subprotocol.  Any other path destroys the socket. -/
def upgradePart000 (verify : String → Bool) (pathname : String)
    (protocols : Option String) : UpgradeResult :=
  if pathname = "/api/voice-agent" then
    match validateWsToken verify protocols with
    | none => .refuse401
    | some _ =>
        .accept (handleProtocols ((jsSplitComma (protocols.getD "")).map jsTrim))
  else .destroySocket

/-- server.js lines 402-429: on `/api/voice-agent` or `/twilio-stream`, a
request with NO `sec-websocket-protocol` header (or an empty one, both
falsy) is upgraded WITHOUT any token validation; only when a header is
present is `validateWsToken` consulted, refusing with 401 on failure. -/
def upgradeServerJs (verify : String → Bool) (pathname : String)
    (protocols : Option String) : UpgradeResult :=
  if pathname = "/api/voice-agent" ∨ pathname = "/twilio-stream" then
    match protocols with
    | none => .accept none
    | some ps =>
        if ps.data.isEmpty then .accept none
        else
          match validateWsToken verify (some ps) with
          | none => .refuse401
          | some _ =>
              .accept (handleProtocols ((jsSplitComma ps).map jsTrim))
  else .destroySocket

/-- The connection registry (`activeConnections`) after an upgrade outcome:
only an accepted upgrade reaches the `connection` handler, which is the only
place that adds to the registry (part_000 line 192). -/
def registryAfterUpgrade (registry : List Nat) (newId : Nat) (r : UpgradeResult) : List Nat :=
  match r with
  | .accept _ => registry ++ [newId]
  | _ => registry

/- ===================== Session relay state machine (part_000 lines 190-272) ===================== -/

/-- `ws` readyState values. -/
inductive ReadyState where
  | connecting
  | rsOpen
  | closing
  | closed
deriving DecidableEq, Repr

/-- One session: the downstream (`clientWs`) and upstream (`deepgramWs`)
readyStates. -/
structure RelayState where
  client : ReadyState
  upstream : ReadyState
deriving DecidableEq, Repr

/-- A relayed application frame: `ws` delivers `(data, isBinary)`. -/
structure Frame where
  isBinary : Bool
  data : String
deriving DecidableEq, Repr

/-- A message sent on a socket: either a relayed frame (sent verbatim) or a
JSON value produced by `JSON.stringify` of a synthesized object. -/
inductive Msg where
  | raw (f : Frame)
  | json (v : JSVal)

/-- An observable action of the relay: send on one of the two sockets, or
call `close` on one of them (`closeDown (some (code, reason))` for
`clientWs.close(code, reason)`, `closeDown none` for the argument-less
`twilioWs.close()`). -/
inductive RAction where
  | sendDown (m : Msg)
  | sendUp (m : Msg)
  | closeDown (args : Option (Int × String))
  | closeUp

/-- Events delivered to the session's handlers (part_000 lines 204-259):
`deepgramWs` open/message/error/close and `clientWs` message/close/error. -/
inductive REvent where
  | upOpen
  | upMessage (f : Frame)
  | upError (emsg : String)
  | upClose (code : Option Int) (reason : String)
  | downMessage (f : Frame)
  | downClose
  | downError

/-- part_000 lines 230-232 (= server.js lines 365-368): the reserved close
codes that cannot be set on an outbound close. -/
def reservedCodes : List Int := [1004, 1005, 1006, 1015]

/-- part_000 line 232: `(typeof code === 'number' && code >= 1000 && code <=
4999 && !reservedCodes.includes(code)) ? code : 1000`. -/
def closeCodeOf (code : Option Int) : Int :=
  match code with
  | some c => if 1000 ≤ c ∧ c ≤ 4999 ∧ reservedCodes.contains c = false then c else 1000
  | none => 1000

/-- part_000 lines 218-222: the structured frame
`{type:'Error', description: error.message || 'Deepgram connection error',
code:'PROVIDER_ERROR'}` sent downstream on an upstream error (an empty
`error.message` is falsy and falls back to the default description). -/
def providerErrorFrame (emsg : String) : JSVal :=
  .obj [("type", .str "Error"),
        ("description", .str (if emsg.data.isEmpty then "Deepgram connection error" else emsg)),
        ("code", .str "PROVIDER_ERROR")]

/-- The browser-client relay of part_000 lines 204-259 (identical in
server.js lines 341-386 and the second chunks of part_001/part_002), one
event handler at a time:
- `deepgramWs.on('open')`: the upstream handshake completes;
- `deepgramWs.on('message')`: forward downstream only `if
  (clientWs.readyState === OPEN)`, else drop;
- `deepgramWs.on('error')`: send `providerErrorFrame` downstream only if
  downstream is OPEN;
- `deepgramWs.on('close')`: close downstream with the mapped code and the
  upstream reason, only if downstream is OPEN;
- `clientWs.on('message')`: forward upstream only if upstream is OPEN;
- `clientWs.on('close')` / `clientWs.on('error')`: call `deepgramWs.close()`
  only `if (deepgramWs.readyState === OPEN)`. -/
def clientRelayStep (s : RelayState) (e : REvent) : RelayState × List RAction :=
  match e with
  | .upOpen =>
      (if s.upstream = .connecting then { s with upstream := .rsOpen } else s, [])
  | .upMessage f =>
      (s, if s.client = .rsOpen then [.sendDown (.raw f)] else [])
  | .upError emsg =>
      (s, if s.client = .rsOpen then [.sendDown (.json (providerErrorFrame emsg))] else [])
  | .upClose code reason =>
      if s.client = .rsOpen then
        ({ client := .closing, upstream := .closed },
         [.closeDown (some (closeCodeOf code, reason))])
      else
        ({ s with upstream := .closed }, [])
  | .downMessage f =>
      (s, if s.upstream = .rsOpen then [.sendUp (.raw f)] else [])
  | .downClose =>
      if s.upstream = .rsOpen then
        ({ client := .closed, upstream := .closing }, [.closeUp])
      else
        ({ s with client := .closed }, [])
  | .downError =>
      if s.upstream = .rsOpen then ({ s with upstream := .closing }, [.closeUp])
      else (s, [])

/-- Run the relay over a sequence of events, collecting the emitted actions
in order. -/
def clientRelayRun (s : RelayState) (es : List REvent) : RelayState × List RAction :=
  match es with
  | [] => (s, [])
  | e :: rest =>
      let r1 := clientRelayStep s e
      let r2 := clientRelayRun r1.1 rest
      (r2.1, r1.2 ++ r2.2)

/-- Lifecycle events of the Twilio relay of part_002 lines 49-103 (its
message handlers are `twilioOnMessage_v2`/`deepgramOnMessage_v2` above). -/
inductive TEvent where
  | upOpen
  | upError (emsg : String)
  | upClose (code : Option Int) (reason : String)
  | downClose
  | downError

/-- The Twilio relay's lifecycle handlers (part_002 lines 83-102):
- `twilioWs.on('close')` / `twilioWs.on('error')`: `deepgramWs.close()` only
  if upstream is OPEN;
- `deepgramWs.on('close')`: `twilioWs.close()` (no code) if downstream OPEN;
- `deepgramWs.on('error')` (lines 99-102): `twilioWs.close()` (no code) if
  downstream OPEN — no error frame is sent downstream. -/
def twilioRelayStep (s : RelayState) (e : TEvent) : RelayState × List RAction :=
  match e with
  | .upOpen =>
      (if s.upstream = .connecting then { s with upstream := .rsOpen } else s, [])
  | .upError _ =>
      if s.client = .rsOpen then ({ s with client := .closing }, [.closeDown none])
      else (s, [])
  | .upClose _ _ =>
      if s.client = .rsOpen then
        ({ client := .closing, upstream := .closed }, [.closeDown none])
      else ({ s with upstream := .closed }, [])
  | .downClose =>
      if s.upstream = .rsOpen then
        ({ client := .closed, upstream := .closing }, [.closeUp])
      else ({ s with client := .closed }, [])
  | .downError =>
      if s.upstream = .rsOpen then ({ s with upstream := .closing }, [.closeUp])
      else (s, [])

/- ===================== Shutdown (part_000 lines 309-339; server.js lines 195-220) ===================== -/

/-- One step of a shutdown procedure, in execution order. -/
inductive ShutdownAction where
  | stopAccepting
  | closeSession (id : Nat) (args : Option (Int × String))
  | closeHttpListener
  | scheduleForceExit (graceMs : Nat) (exitCode : Nat)
deriving DecidableEq, Repr

/-- part_000 lines 309-339 `gracefulShutdown`: `wss.close()` (stop accepting
new connections), then `ws.close(1001, 'Server shutting down')` for every
registered connection, then `server.close()` whose callback runs
`process.exit(0)` once everything drains, and a 10000 ms timer that runs
`process.exit(1)` if not. -/
def gracefulShutdown (registry : List Nat) : List ShutdownAction :=
  [.stopAccepting]
    ++ registry.map (fun id => .closeSession id (some (1001, "Server shutting down")))
    ++ [.closeHttpListener, .scheduleForceExit 10000 1]

/-- part_000: exit code used when the HTTP server's close callback fires
(all sessions drained). -/
def gracefulShutdownExitDrained : Nat := 0

/-- server.js lines 195-220 `shutdown`: `client.close()` with NO arguments
for every client, then `wss.close()`, then `server.close()` (exit 0 on
drain), and a 5000 ms timer running `process.exit(1)`. -/
def shutdownServerJs (registry : List Nat) : List ShutdownAction :=
  registry.map (fun id => .closeSession id none)
    ++ [.stopAccepting, .closeHttpListener, .scheduleForceExit 5000 1]

/- ===================== Helper lemmas ===================== -/

/-- A deleted key is absent from the store. -/
theorem storeGet_storeDelete (s : NonceStore) (k : String) :
    storeGet (storeDelete s k) k = none := by
  unfold storeGet storeDelete
  cases hf : (s.filter (fun p => p.1 != k)).find? (fun p => p.1 == k) with
  | none => rfl
  | some q =>
      have h1 : q.1 = k := by simpa using List.find?_some hf
      have h2 := List.mem_filter.mp (List.mem_of_find?_eq_some hf)
      have h3 : ¬(q.1 = k) := by simpa [bne] using h2.2
      exact absurd h1 h3

/-- A freshly set key maps to the value just stored. -/
theorem storeGet_storeSet (s : NonceStore) (k : String) (x : Int) :
    storeGet (storeSet s k x) k = some x := by
  have hdel := storeGet_storeDelete s k
  unfold storeGet at hdel ⊢
  unfold storeSet
  have hnone : (storeDelete s k).find? (fun p => p.1 == k) = none := by
    cases hf : (storeDelete s k).find? (fun p => p.1 == k) with
    | none => rfl
    | some q => rw [hf] at hdel; simp at hdel
  rw [List.find?_append, hnone]
  simp [List.find?]

/- ===================== Claim theorems ===================== -/

/-- C1: on an upstream close event with code `c` and reason `r` while the
downstream socket is open, the relay closes downstream with exactly
`closeCodeOf c` and passes `r` through; `closeCodeOf` is the identity on
numeric codes in [1000, 4999] outside {1004, 1005, 1006, 1015}, and maps
every other code — including an absent one — to 1000. -/
theorem close_code_propagation (s : RelayState) (c : Option Int) (r : String)
    (h : s.client = ReadyState.rsOpen) :
    (clientRelayStep s (REvent.upClose c r)).2
      = [RAction.closeDown (some (closeCodeOf c, r))] ∧
    (∀ n : Int, 1000 ≤ n → n ≤ 4999 → reservedCodes.contains n = false →
      closeCodeOf (some n) = n) ∧
    (∀ n : Int, n < 1000 ∨ 4999 < n ∨ reservedCodes.contains n = true →
      closeCodeOf (some n) = 1000) ∧
    closeCodeOf none = 1000 := by
  refine ⟨by simp [clientRelayStep, h], ?_, ?_, rfl⟩
  · intro n h1 h2 h3
    have hcond : 1000 ≤ n ∧ n ≤ 4999 ∧ reservedCodes.contains n = false := ⟨h1, h2, h3⟩
    simp only [closeCodeOf, if_pos hcond]
  · intro n hn
    have hc : ¬(1000 ≤ n ∧ n ≤ 4999 ∧ reservedCodes.contains n = false) := by
      rintro ⟨a1, a2, a3⟩
      rcases hn with h1 | h1 | h1
      · omega
      · omega
      · rw [h1] at a3
        exact Bool.noConfusion a3
    simp only [closeCodeOf, if_neg hc]

/-- C1 witness: concrete instance with the downstream socket open, code 1006
(reserved, mapped to 1000) and code 4001 (propagated verbatim). -/
theorem close_code_propagation_witness :
    (RelayState.mk ReadyState.rsOpen ReadyState.rsOpen).client = ReadyState.rsOpen ∧
    (clientRelayStep ⟨ReadyState.rsOpen, ReadyState.rsOpen⟩
        (REvent.upClose (some 1006) "eof")).2
      = [RAction.closeDown (some (closeCodeOf (some 1006), "eof"))] ∧
    closeCodeOf (some 1006) = 1000 ∧
    closeCodeOf (some 4001) = 4001 ∧
    closeCodeOf none = 1000 :=
  ⟨rfl,
   (close_code_propagation ⟨ReadyState.rsOpen, ReadyState.rsOpen⟩ (some 1006) "eof" rfl).1,
   (close_code_propagation ⟨ReadyState.rsOpen, ReadyState.rsOpen⟩ (some 1006) "eof" rfl).2.2.1
     1006 (Or.inr (Or.inr (by decide))),
   (close_code_propagation ⟨ReadyState.rsOpen, ReadyState.rsOpen⟩ (some 1006) "eof" rfl).2.1
     4001 (by decide) (by decide) (by decide),
   (close_code_propagation ⟨ReadyState.rsOpen, ReadyState.rsOpen⟩ (some 1006) "eof" rfl).2.2.2⟩

/-- C2 counterexample: a frame `{event:"media", media:{}}` — which is
"missing media.payload" — is NOT discarded by the try/catch adapter variant
(part_001): it forwards `{type:"input_audio"}` upstream (the `audio` key is
dropped by `JSON.stringify` because `data.media.payload` is `undefined`);
and in the part_002 variant a non-JSON frame makes the handler throw. -/
theorem adapter_missing_payload_counterexample :
    twilioOnMessage_v1
        (some (JSVal.obj [("event", JSVal.str "media"), ("media", JSVal.obj [])]))
      = some (JSVal.obj [("type", JSVal.str "input_audio")]) ∧
    (twilioOnMessage_v1
        (some (JSVal.obj [("event", JSVal.str "media"), ("media", JSVal.obj [])]))).isSome
      = true ∧
    twilioOnMessage_v2 none = Except.error () :=
  ⟨rfl, rfl, rfl⟩

/-- C2 amended: the happy-path translations are exact in both directions;
in the try/catch variant (part_001) a non-JSON frame, a frame whose
`media`/`event` access throws, or an unrecognized event is discarded without
throwing; but a frame `{event:"media"}` with a `media` object lacking
`payload` forwards `{type:"input_audio"}` with the `audio` key omitted, and
in the part_002 variant (no try/catch) a non-JSON frame throws out of the
message handler. -/
theorem adapter_translation (p a : String) :
    twilioOnMessage_v1
        (some (JSVal.obj [("event", JSVal.str "media"),
                          ("media", JSVal.obj [("payload", JSVal.str p)])]))
      = some (JSVal.obj [("type", JSVal.str "input_audio"), ("audio", JSVal.str p)]) ∧
    deepgramOnMessage_v1
        (some (JSVal.obj [("type", JSVal.str "output_audio"), ("audio", JSVal.str a)]))
      = some (JSVal.obj [("event", JSVal.str "media"),
                         ("media", JSVal.obj [("payload", JSVal.str a)])]) ∧
    twilioOnMessage_v1 none = none ∧
    deepgramOnMessage_v1 none = none ∧
    twilioOnMessage_v1 (some (JSVal.obj [("event", JSVal.str "start")])) = none ∧
    deepgramOnMessage_v1 (some (JSVal.obj [("type", JSVal.str "Welcome")])) = none ∧
    twilioOnMessage_v1 (some (JSVal.obj [("event", JSVal.str "media")])) = none ∧
    twilioOnMessage_v1 (some JSVal.jsNull) = none ∧
    twilioOnMessage_v1
        (some (JSVal.obj [("event", JSVal.str "media"), ("media", JSVal.obj [])]))
      = some (JSVal.obj [("type", JSVal.str "input_audio")]) ∧
    twilioOnMessage_v2 none = Except.error () ∧
    deepgramOnMessage_v2 none = Except.error () :=
  ⟨rfl, rfl, rfl, rfl, rfl, rfl, rfl, rfl, rfl, rfl, rfl⟩

/-- C3 counterexample: in the Twilio relay of part_002, an upstream error
while both sockets are open produces only a bare argument-less close of the
downstream socket — no structured `PROVIDER_ERROR` frame is delivered before
the server-initiated close. -/
theorem upstream_error_bare_close_counterexample :
    twilioRelayStep ⟨ReadyState.rsOpen, ReadyState.rsOpen⟩
        (TEvent.upError "connect ECONNREFUSED")
      = (⟨ReadyState.closing, ReadyState.rsOpen⟩, [RAction.closeDown none]) :=
  rfl

/-- C3 amended: in the browser-client relay (part_000, server.js), an
upstream error followed by the abnormal-closure close event (code 1006, as
`ws` emits after a failure to open) delivers exactly one structured
`Error/PROVIDER_ERROR` frame downstream strictly before the downstream
close, and that close uses code 1000; in the Twilio relay of part_002,
however, an upstream error closes downstream directly with no error frame. -/
theorem provider_error_then_close (m r : String) :
    clientRelayRun ⟨ReadyState.rsOpen, ReadyState.connecting⟩
        [REvent.upError m, REvent.upClose (some 1006) r]
      = (⟨ReadyState.closing, ReadyState.closed⟩,
         [RAction.sendDown (Msg.json (providerErrorFrame m)),
          RAction.closeDown (some (1000, r))]) ∧
    providerErrorFrame m
      = JSVal.obj [("type", JSVal.str "Error"),
                   ("description", JSVal.str
                     (if m.data.isEmpty then "Deepgram connection error" else m)),
                   ("code", JSVal.str "PROVIDER_ERROR")] ∧
    twilioRelayStep ⟨ReadyState.rsOpen, ReadyState.rsOpen⟩ (TEvent.upError m)
      = (⟨ReadyState.closing, ReadyState.rsOpen⟩, [RAction.closeDown none]) :=
  ⟨rfl, rfl, rfl⟩

/-- C4: a nonce issued at `t0` validates on its first `consumeNonce` call at
`t1` exactly when `t1` is within the 5-minute TTL; the value is deleted from
the store by that first call whether or not it had expired, so every later
call returns false; and consuming a never-issued value returns false and
leaves the store unchanged. -/
theorem nonce_single_use (s s' : NonceStore) (v : String) (t0 t1 t2 : Int)
    (h0 : 0 ≤ t0) (hs' : storeGet s' v = none) :
    (consumeNonce (generateNonce s v t0).2 t1 v).1 = decide (t1 < t0 + NONCE_TTL_MS) ∧
    storeGet (consumeNonce (generateNonce s v t0).2 t1 v).2 v = none ∧
    (consumeNonce (consumeNonce (generateNonce s v t0).2 t1 v).2 t2 v).1 = false ∧
    consumeNonce s' t2 v = (false, s') := by
  have hget : storeGet (generateNonce s v t0).2 v = some (t0 + NONCE_TTL_MS) :=
    storeGet_storeSet s v (t0 + NONCE_TTL_MS)
  have hexp : ¬(t0 + NONCE_TTL_MS = 0) := by unfold NONCE_TTL_MS; omega
  have hnone : ∀ (u : NonceStore) (t : Int), storeGet u v = none →
      consumeNonce u t v = (false, u) := by
    intro u t hu
    unfold consumeNonce
    rw [hu]
  have hcons : consumeNonce (generateNonce s v t0).2 t1 v
      = (decide (t1 < t0 + NONCE_TTL_MS), storeDelete (generateNonce s v t0).2 v) := by
    unfold consumeNonce
    rw [hget]
    simp [hexp]
  have hdel : storeGet (storeDelete (generateNonce s v t0).2 v) v = none :=
    storeGet_storeDelete _ v
  refine ⟨by rw [hcons], by rw [hcons]; exact hdel, ?_, hnone s' t2 hs'⟩
  rw [hcons]
  show (consumeNonce (storeDelete (generateNonce s v t0).2 v) t2 v).1 = false
  rw [hnone _ t2 hdel]

/-- C4 witness: a nonce issued at time 0 into an empty store, consumed at 1
ms (within TTL), then re-consumed at 2 ms. -/
theorem nonce_single_use_witness :
    (0 : Int) ≤ 0 ∧ storeGet [] "n" = none ∧
    ((consumeNonce (generateNonce [] "n" 0).2 1 "n").1
        = decide ((1 : Int) < 0 + NONCE_TTL_MS) ∧
     storeGet (consumeNonce (generateNonce [] "n" 0).2 1 "n").2 "n" = none ∧
     (consumeNonce (consumeNonce (generateNonce [] "n" 0).2 1 "n").2 2 "n").1 = false ∧
     consumeNonce [] 2 "n" = (false, [])) :=
  ⟨le_refl 0, rfl, nonce_single_use [] [] "n" 0 1 2 (le_refl 0) rfl⟩

/-- When `validateWsToken` succeeds, the subprotocol echoed by
`handleProtocols` over the same parsed header is exactly the validated
entry, which starts with `access_token.` and whose remainder verifies. -/
theorem validateWsToken_echo (verify : String → Bool) (protocols : Option String) (p : String)
    (h : validateWsToken verify protocols = some p) :
    handleProtocols ((jsSplitComma (protocols.getD "")).map jsTrim) = some p ∧
    jsStartsWith p "access_token." = true ∧
    verify (jsSlice p "access_token.".data.length) = true := by
  cases protocols with
  | none => simp [validateWsToken] at h
  | some ps =>
      simp only [validateWsToken] at h
      simp only [Option.getD]
      by_cases he : ps.data.isEmpty = true
      · rw [if_pos he] at h
        exact absurd h (by simp)
      · rw [if_neg he] at h
        cases hf : ((jsSplitComma ps).map jsTrim).find?
            (fun q => jsStartsWith q "access_token.") with
        | none =>
            rw [hf] at h
            exact absurd h (by simp)
        | some tp =>
            rw [hf] at h
            have h2 : (if verify (jsSlice tp "access_token.".data.length) = true
                       then (some tp : Option String) else none) = some p := h
            by_cases hv : verify (jsSlice tp "access_token.".data.length) = true
            · rw [if_pos hv] at h2
              rw [Option.some.injEq] at h2
              subst h2
              have h3 := @List.find?_some String
                (fun q => jsStartsWith q "access_token.") tp
                ((jsSplitComma ps).map jsTrim) hf
              exact ⟨hf, h3, hv⟩
            · rw [if_neg hv] at h2
              exact absurd h2 (by simp)

/-- C5 counterexample: in the server.js upgrade handler, a request to the
agent endpoint that carries NO subprotocol header at all is upgraded without
any token validation (even when no token could possibly verify), instead of
being refused with 401. -/
theorem upgrade_missing_header_bypass_counterexample :
    upgradeServerJs (fun _ => false) "/api/voice-agent" none = UpgradeResult.accept none ∧
    upgradeServerJs (fun _ => false) "/api/voice-agent" none ≠ UpgradeResult.refuse401 :=
  ⟨rfl, by decide⟩

/-- C5 amended: in part_000 the upgrade on the agent endpoint is refused
with 401 exactly when `validateWsToken` fails, a refused upgrade leaves the
connection registry unchanged, and on success the echoed subprotocol is the
exact validated `access_token.<token>` entry; in the server.js variant,
however, a request with no subprotocol header is accepted without token
validation (requests that do carry a header are still validated). -/
theorem upgrade_auth_gate (verify : String → Bool) (protocols : Option String)
    (registry : List Nat) (newId : Nat) :
    upgradePart000 verify "/api/voice-agent" protocols
      = (match validateWsToken verify protocols with
         | none => UpgradeResult.refuse401
         | some p => UpgradeResult.accept (some p)) ∧
    (∀ p : String, validateWsToken verify protocols = some p →
      jsStartsWith p "access_token." = true ∧
      verify (jsSlice p "access_token.".data.length) = true) ∧
    registryAfterUpgrade registry newId UpgradeResult.refuse401 = registry ∧
    upgradeServerJs verify "/api/voice-agent" none = UpgradeResult.accept none := by
  refine ⟨?_, ?_, rfl, rfl⟩
  · unfold upgradePart000
    rw [if_pos rfl]
    cases hv : validateWsToken verify protocols with
    | none => rfl
    | some p => rw [(validateWsToken_echo verify protocols p hv).1]
  · intro p hp
    exact ⟨(validateWsToken_echo verify protocols p hp).2.1,
           (validateWsToken_echo verify protocols p hp).2.2⟩

/-- C5 witness: a concrete header `access_token.tok` with a verifier
accepting exactly `tok`. -/
theorem upgrade_auth_gate_witness :
    upgradePart000 (fun s => s == "tok") "/api/voice-agent" (some "access_token.tok")
      = (match validateWsToken (fun s => s == "tok") (some "access_token.tok") with
         | none => UpgradeResult.refuse401
         | some p => UpgradeResult.accept (some p)) ∧
    (jsStartsWith "access_token.tok" "access_token." = true ∧
     (fun s => s == "tok") (jsSlice "access_token.tok" "access_token.".data.length) = true) ∧
    registryAfterUpgrade [3] 4 UpgradeResult.refuse401 = [3] ∧
    upgradeServerJs (fun s => s == "tok") "/api/voice-agent" none = UpgradeResult.accept none :=
  ⟨(upgrade_auth_gate (fun s => s == "tok") (some "access_token.tok") [3] 4).1,
   (upgrade_auth_gate (fun s => s == "tok") (some "access_token.tok") [3] 4).2.1
     "access_token.tok" rfl,
   (upgrade_auth_gate (fun s => s == "tok") (some "access_token.tok") [3] 4).2.2.1,
   (upgrade_auth_gate (fun s => s == "tok") (some "access_token.tok") [3] 4).2.2.2⟩

/-- C6 counterexample: if the downstream socket closes while the upstream
connection is still in its handshake (CONNECTING), the guarded
`if (deepgramWs.readyState === OPEN)` skips the close; when the upstream
handshake then completes, the upstream handle is open and no close of it was
ever issued — session teardown did not close both handles. -/
theorem handshake_close_leak_counterexample :
    clientRelayRun ⟨ReadyState.rsOpen, ReadyState.connecting⟩
        [REvent.downClose, REvent.upOpen]
      = (⟨ReadyState.closed, ReadyState.rsOpen⟩, []) ∧
    (RelayState.mk ReadyState.closed ReadyState.rsOpen).upstream ≠ ReadyState.closing ∧
    (RelayState.mk ReadyState.closed ReadyState.rsOpen).upstream ≠ ReadyState.closed :=
  ⟨rfl, by decide, by decide⟩

/-- C6 amended: a downstream close or error closes the upstream handle if
and only if the upstream readyState is OPEN at that moment (when it is, the
close is issued immediately, without waiting for the upstream close
handshake); when the upstream handle is not OPEN — already closing, closed,
or still connecting — the guard makes the handler a total no-op that never
raises, so closing an already-closed handle is harmless, but a downstream close
during the upstream handshake leaves the upstream handle unclosed. -/
theorem downstream_teardown_closes_upstream (s s' : RelayState)
    (h : s.upstream = ReadyState.rsOpen) (h' : s'.upstream ≠ ReadyState.rsOpen) :
    clientRelayStep s REvent.downClose
      = (⟨ReadyState.closed, ReadyState.closing⟩, [RAction.closeUp]) ∧
    clientRelayStep s REvent.downError
      = ({ s with upstream := ReadyState.closing }, [RAction.closeUp]) ∧
    (clientRelayStep s' REvent.downClose).2 = [] ∧
    (clientRelayStep s' REvent.downClose).1.upstream = s'.upstream ∧
    (clientRelayStep s' REvent.downError).2 = [] ∧
    (clientRelayStep s' REvent.downError).1 = s' := by
  refine ⟨by simp [clientRelayStep, h], by simp [clientRelayStep, h], ?_, ?_, ?_, ?_⟩
    <;> simp [clientRelayStep, h']

/-- C6 witness: downstream closes with the upstream handle open, and with
the upstream handle still connecting. -/
theorem downstream_teardown_closes_upstream_witness :
    ((RelayState.mk ReadyState.rsOpen ReadyState.rsOpen).upstream = ReadyState.rsOpen ∧
     (RelayState.mk ReadyState.rsOpen ReadyState.connecting).upstream ≠ ReadyState.rsOpen) ∧
    (clientRelayStep ⟨ReadyState.rsOpen, ReadyState.rsOpen⟩ REvent.downClose
      = (⟨ReadyState.closed, ReadyState.closing⟩, [RAction.closeUp]) ∧
     clientRelayStep ⟨ReadyState.rsOpen, ReadyState.rsOpen⟩ REvent.downError
      = ({ RelayState.mk ReadyState.rsOpen ReadyState.rsOpen with
            upstream := ReadyState.closing }, [RAction.closeUp]) ∧
     (clientRelayStep ⟨ReadyState.rsOpen, ReadyState.connecting⟩ REvent.downClose).2 = [] ∧
     (clientRelayStep ⟨ReadyState.rsOpen, ReadyState.connecting⟩ REvent.downClose).1.upstream
       = (RelayState.mk ReadyState.rsOpen ReadyState.connecting).upstream ∧
     (clientRelayStep ⟨ReadyState.rsOpen, ReadyState.connecting⟩ REvent.downError).2 = [] ∧
     (clientRelayStep ⟨ReadyState.rsOpen, ReadyState.connecting⟩ REvent.downError).1
       = ⟨ReadyState.rsOpen, ReadyState.connecting⟩) :=
  ⟨⟨rfl, by decide⟩,
   downstream_teardown_closes_upstream ⟨ReadyState.rsOpen, ReadyState.rsOpen⟩
     ⟨ReadyState.rsOpen, ReadyState.connecting⟩ rfl (by decide)⟩

/-- C7: a token signed over issued-at `iat` carries expiry `iat + 3600`
seconds and an HMAC tag over the claims; `jwt.verify` accepts it exactly
while `now` is before the expiry, and accepts an arbitrary token exactly
when its signature matches the tag under the process secret and it is
unexpired — so any token past expiry or with a non-verifying signature is
rejected. -/
theorem jwt_validate_token (secret : String) (iat now : Int) (t : Token) :
    jwtSign secret iat
      = { iat := iat, exp := iat + 3600, sig := macString secret iat (iat + 3600) } ∧
    (jwtVerify secret now (jwtSign secret iat) = true ↔ now < iat + 3600) ∧
    (jwtVerify secret now t = true ↔
      (t.sig = macString secret t.iat t.exp ∧ now < t.exp)) := by
  refine ⟨rfl, ?_, ?_⟩
  · unfold jwtVerify jwtSign
    simp
  · unfold jwtVerify
    simp

/-- C8 counterexample: the server.js `shutdown` closes the single live
session with an argument-less `close()` — no distinguishing server-shutdown
close code — and schedules the forced exit after 5000 ms, not 10000 ms. -/
theorem shutdown_serverjs_counterexample :
    shutdownServerJs [0]
      = [ShutdownAction.closeSession 0 none,
         ShutdownAction.stopAccepting,
         ShutdownAction.closeHttpListener,
         ShutdownAction.scheduleForceExit 5000 1] ∧
    ShutdownAction.closeSession 0 none
      ≠ ShutdownAction.closeSession 0 (some (1001, "Server shutting down")) ∧
    ShutdownAction.scheduleForceExit 5000 1 ≠ ShutdownAction.scheduleForceExit 10000 1 :=
  ⟨rfl, by decide, by decide⟩

/-- C8 amended: part_000's `gracefulShutdown` stops accepting new sessions,
closes every registered session with the distinguishing close 1001 "Server
shutting down", then closes the listener, exits 0 when everything drains and
force-exits 1 after a 10-second grace period; the server.js variant instead
closes sessions with the default argument-less close and force-exits 1 after
only 5 seconds. -/
theorem graceful_shutdown_plan (registry : List Nat) (id : Nat) (hid : id ∈ registry) :
    gracefulShutdown registry
      = [ShutdownAction.stopAccepting]
          ++ registry.map
              (fun i => ShutdownAction.closeSession i (some (1001, "Server shutting down")))
          ++ [ShutdownAction.closeHttpListener, ShutdownAction.scheduleForceExit 10000 1] ∧
    ShutdownAction.closeSession id (some (1001, "Server shutting down"))
      ∈ gracefulShutdown registry ∧
    gracefulShutdownExitDrained = 0 ∧
    ShutdownAction.closeSession id none ∈ shutdownServerJs registry ∧
    ShutdownAction.scheduleForceExit 5000 1 ∈ shutdownServerJs registry := by
  refine ⟨rfl, ?_, rfl, ?_, ?_⟩
  · unfold gracefulShutdown
    exact List.mem_append_left _
      (List.mem_append_right _ (List.mem_map.mpr ⟨id, hid, rfl⟩))
  · unfold shutdownServerJs
    exact List.mem_append_left _ (List.mem_map.mpr ⟨id, hid, rfl⟩)
  · unfold shutdownServerJs
    refine List.mem_append_right _ ?_
    simp

/-- C8 witness: a registry holding one live session (id 7). -/
theorem graceful_shutdown_plan_witness :
    7 ∈ [7] ∧
    (gracefulShutdown [7]
      = [ShutdownAction.stopAccepting]
          ++ [7].map
              (fun i => ShutdownAction.closeSession i (some (1001, "Server shutting down")))
          ++ [ShutdownAction.closeHttpListener, ShutdownAction.scheduleForceExit 10000 1] ∧
     ShutdownAction.closeSession 7 (some (1001, "Server shutting down"))
       ∈ gracefulShutdown [7] ∧
     gracefulShutdownExitDrained = 0 ∧
     ShutdownAction.closeSession 7 none ∈ shutdownServerJs [7] ∧
     ShutdownAction.scheduleForceExit 5000 1 ∈ shutdownServerJs [7]) :=
  ⟨List.mem_singleton.mpr rfl, graceful_shutdown_plan [7] 7 (List.mem_singleton.mpr rfl)⟩

/-- C9: nonce enforcement at the token-issuance endpoint is active exactly
when a non-empty external signing secret is configured; when active, a
missing `x-session-nonce` header or one failing `consumeNonce` yields the
403 `AuthenticationError/INVALID_NONCE` body and no token, a passing nonce
yields a signed token, and when inactive a token is issued unconditionally. -/
theorem session_nonce_enforcement (secret extStr : String) (s : NonceStore)
    (nowMs : Int) (badN goodN : String)
    (hext : extStr.data ≠ [])
    (hbad : (consumeNonce s nowMs badN).1 = false)
    (hgood : (consumeNonce s nowMs goodN).1 = true) :
    requireNonceOf none = false ∧
    requireNonceOf (some extStr) = true ∧
    apiSession true secret s nowMs none
      = (SessionResponse.authError 403 "AuthenticationError" "INVALID_NONCE"
          "Valid session nonce required. Please refresh the page.", s) ∧
    apiSession true secret s nowMs (some badN)
      = (SessionResponse.authError 403 "AuthenticationError" "INVALID_NONCE"
          "Valid session nonce required. Please refresh the page.",
         (consumeNonce s nowMs badN).2) ∧
    apiSession true secret s nowMs (some goodN)
      = (SessionResponse.issuedToken (jwtSign secret (Int.ediv nowMs 1000)),
         (consumeNonce s nowMs goodN).2) ∧
    apiSession false secret s nowMs none
      = (SessionResponse.issuedToken (jwtSign secret (Int.ediv nowMs 1000)), s) ∧
    apiSession false secret s nowMs (some badN)
      = (SessionResponse.issuedToken (jwtSign secret (Int.ediv nowMs 1000)), s) := by
  refine ⟨rfl, ?_, rfl, ?_, ?_, rfl, rfl⟩
  · unfold requireNonceOf
    simp [hext]
  · unfold apiSession
    simp [hbad]
  · unfold apiSession
    simp [hgood]

/-- C9 witness: a store holding one fresh nonce "good" issued at time 0,
queried at 1 ms with the bad value "bad" and the good value "good", with
external secret "k". -/
theorem session_nonce_enforcement_witness :
    ("k".data ≠ [] ∧
     (consumeNonce (generateNonce [] "good" 0).2 1 "bad").1 = false ∧
     (consumeNonce (generateNonce [] "good" 0).2 1 "good").1 = true) ∧
    (requireNonceOf none = false ∧
     requireNonceOf (some "k") = true ∧
     apiSession true "sec" (generateNonce [] "good" 0).2 1 none
       = (SessionResponse.authError 403 "AuthenticationError" "INVALID_NONCE"
           "Valid session nonce required. Please refresh the page.",
          (generateNonce [] "good" 0).2) ∧
     apiSession true "sec" (generateNonce [] "good" 0).2 1 (some "bad")
       = (SessionResponse.authError 403 "AuthenticationError" "INVALID_NONCE"
           "Valid session nonce required. Please refresh the page.",
          (consumeNonce (generateNonce [] "good" 0).2 1 "bad").2) ∧
     apiSession true "sec" (generateNonce [] "good" 0).2 1 (some "good")
       = (SessionResponse.issuedToken (jwtSign "sec" (Int.ediv 1 1000)),
          (consumeNonce (generateNonce [] "good" 0).2 1 "good").2) ∧
     apiSession false "sec" (generateNonce [] "good" 0).2 1 none
       = (SessionResponse.issuedToken (jwtSign "sec" (Int.ediv 1 1000)),
          (generateNonce [] "good" 0).2) ∧
     apiSession false "sec" (generateNonce [] "good" 0).2 1 (some "bad")
       = (SessionResponse.issuedToken (jwtSign "sec" (Int.ediv 1 1000)),
          (generateNonce [] "good" 0).2)) :=
  ⟨⟨by decide, rfl, rfl⟩,
   session_nonce_enforcement "sec" "k" (generateNonce [] "good" 0).2 1 "bad" "good"
     (by decide) rfl rfl⟩

/-- C10: a frame arriving on one socket while the other socket's readyState
is not OPEN is silently discarded: the handler emits nothing and leaves the
session state unchanged, so the run over any continuation is identical to
the run without that frame — the frame is neither queued nor delivered after
the other handle opens, and no error is reported to either side. -/
theorem relay_drops_frames_when_not_open (s su : RelayState) (f : Frame)
    (rest : List REvent)
    (hc : s.client ≠ ReadyState.rsOpen) (hu : su.upstream ≠ ReadyState.rsOpen) :
    clientRelayStep s (REvent.upMessage f) = (s, []) ∧
    clientRelayRun s (REvent.upMessage f :: rest) = clientRelayRun s rest ∧
    clientRelayStep su (REvent.downMessage f) = (su, []) ∧
    clientRelayRun su (REvent.downMessage f :: rest) = clientRelayRun su rest := by
  have h1 : clientRelayStep s (REvent.upMessage f) = (s, []) := by
    simp [clientRelayStep, hc]
  have h2 : clientRelayStep su (REvent.downMessage f) = (su, []) := by
    simp [clientRelayStep, hu]
  refine ⟨h1, ?_, h2, ?_⟩
  · show (let r1 := clientRelayStep s (REvent.upMessage f)
          let r2 := clientRelayRun r1.1 rest
          (r2.1, r1.2 ++ r2.2)) = clientRelayRun s rest
    rw [h1]
    simp
  · show (let r1 := clientRelayStep su (REvent.downMessage f)
          let r2 := clientRelayRun r1.1 rest
          (r2.1, r1.2 ++ r2.2)) = clientRelayRun su rest
    rw [h2]
    simp

/-- C10 witness: a downstream frame arriving during the upstream handshake
and an upstream frame arriving after the downstream socket closed, each
followed by the other handle opening. -/
theorem relay_drops_frames_when_not_open_witness :
    ((RelayState.mk ReadyState.closed ReadyState.rsOpen).client ≠ ReadyState.rsOpen ∧
     (RelayState.mk ReadyState.rsOpen ReadyState.connecting).upstream ≠ ReadyState.rsOpen) ∧
    (clientRelayStep ⟨ReadyState.closed, ReadyState.rsOpen⟩
        (REvent.upMessage ⟨true, "pcm"⟩) = (⟨ReadyState.closed, ReadyState.rsOpen⟩, []) ∧
     clientRelayRun ⟨ReadyState.closed, ReadyState.rsOpen⟩
        (REvent.upMessage ⟨true, "pcm"⟩ :: [REvent.upOpen])
       = clientRelayRun ⟨ReadyState.closed, ReadyState.rsOpen⟩ [REvent.upOpen] ∧
     clientRelayStep ⟨ReadyState.rsOpen, ReadyState.connecting⟩
        (REvent.downMessage ⟨true, "pcm"⟩)
       = (⟨ReadyState.rsOpen, ReadyState.connecting⟩, []) ∧
     clientRelayRun ⟨ReadyState.rsOpen, ReadyState.connecting⟩
        (REvent.downMessage ⟨true, "pcm"⟩ :: [REvent.upOpen])
       = clientRelayRun ⟨ReadyState.rsOpen, ReadyState.connecting⟩ [REvent.upOpen]) :=
  ⟨⟨by decide, by decide⟩,
   relay_drops_frames_when_not_open ⟨ReadyState.closed, ReadyState.rsOpen⟩
     ⟨ReadyState.rsOpen, ReadyState.connecting⟩ ⟨true, "pcm"⟩ [REvent.upOpen]
     (by decide) (by decide)⟩

end VoiceAgent
